import Mathlib

/-!
Verification of the DragonBridge clipboard bridge (src/DragonBridge.py).

We shallowly embed the classifier (`process_voice_commands` with its two
lookup tables), the monitor-loop iteration (`ClipboardBridge._monitor_loop`),
the start/stop lifecycle (`ClipboardBridge.start` / `stop`), and the
configuration loader (`load_config`). Python dicts become association lists
(the literal tables have pairwise-distinct keys, so first-match lookup agrees
with dict lookup); Python `str.strip().lower()` is modelled by Lean
`String.trim` / `String.toLower` (the tables are ASCII, where the two agree);
exceptions become `Except Unit`.
-/

/-- One character of Python `str.strip()`'s default whitespace (the ASCII
fragment; the strings in this program are ASCII). -/
def pyIsSpace (c : Char) : Bool :=
  c = ' ' ∨ c = '\t' ∨ c = '\n' ∨ c = '\x0d' ∨ c = '\x0b' ∨ c = '\x0c'

/-- Python `str.lower()` on one character (ASCII fragment). -/
def pyLowerChar (c : Char) : Char :=
  if 'A' ≤ c ∧ c ≤ 'Z' then Char.ofNat (c.toNat + 32) else c

/-- Python `str.upper()` on one character (ASCII fragment). -/
def pyUpperChar (c : Char) : Char :=
  if 'a' ≤ c ∧ c ≤ 'z' then Char.ofNat (c.toNat - 32) else c

/-- Python `str.strip()`: remove leading and trailing whitespace. -/
def pyStrip (s : String) : String :=
  ⟨(((s.data.dropWhile pyIsSpace).reverse.dropWhile pyIsSpace).reverse)⟩

/-- Python `str.lower()`. -/
def pyLower (s : String) : String :=
  ⟨s.data.map pyLowerChar⟩

/-- Python `str.upper()`. -/
def pyUpper (s : String) : String :=
  ⟨s.data.map pyUpperChar⟩

/-- Result of `process_voice_commands`: `('action', cmd)`, `('text', s)` or
`('insert', original)`. -/
inductive CmdResult where
  | action (cmd : String)
  | text (s : String)
  | insert (s : String)
deriving DecidableEq, Repr

/-- The `VOICE_COMMANDS` dict (text substitutions), in source order. -/
def VOICE_COMMANDS : List (String × String) :=
  [("new line", "\n"),
   ("new paragraph", "\n\n"),
   ("tab key", "\t"),
   ("period", "."),
   ("comma", ","),
   ("exclamation point", "!"),
   ("exclamation mark", "!"),
   ("question mark", "?"),
   ("colon", ":"),
   ("semicolon", ";"),
   ("open paren", "("),
   ("close paren", ")"),
   ("open quote", "“"),
   ("close quote", "”"),
   ("open single quote", "‘"),
   ("close single quote", "’"),
   ("hyphen", "-"),
   ("dash", "—"),
   ("ellipsis", "…")]

/-- The `ACTION_COMMANDS` dict (UNO dispatch commands), in source order. -/
def ACTION_COMMANDS : List (String × String) :=
  [("select all", ".uno:SelectAll"),
   ("undo that", ".uno:Undo"),
   ("redo that", ".uno:Redo"),
   ("bold that", ".uno:Bold"),
   ("italicize that", ".uno:Italic"),
   ("underline that", ".uno:Underline"),
   ("cut that", ".uno:Cut"),
   ("copy that", ".uno:Copy"),
   ("paste that", ".uno:Paste"),
   ("delete that", ".uno:SwBackspace"),
   ("save document", ".uno:Save"),
   ("scratch that", ".uno:Undo")]

/-- `process_voice_commands(text)`: normalize by `strip().lower()`, check the
action table first, then the substitution table, else pass the original text
through. -/
def process_voice_commands (text : String) : CmdResult :=
  let lower := pyLower (pyStrip text)
  match ACTION_COMMANDS.lookup lower with
  | some cmd => .action cmd
  | none =>
    match VOICE_COMMANDS.lookup lower with
    | some s => .text s
    | none => .insert text

/-- The classifier as the spec words it: membership of the normalized text in
the action table's key set decides Action, else membership in the
substitution table's key set decides Text, else Insert of the original
string. Stated separately from `process_voice_commands` so that agreement is
a theorem, not a definition. -/
def classify_spec (text : String) : CmdResult :=
  let n := pyLower (pyStrip text)
  if (ACTION_COMMANDS.map Prod.fst).contains n then
    .action ((ACTION_COMMANDS.lookup n).getD "")
  else if (VOICE_COMMANDS.map Prod.fst).contains n then
    .text ((VOICE_COMMANDS.lookup n).getD "")
  else
    .insert text

/-- Whether a classification result is an Action. -/
def CmdResult.isAction : CmdResult → Bool
  | .action _ => true
  | _ => false

/-! ## Configuration (`load_config`, `save_config` values) -/

/-- A JSON value as stored in `settings.json` (the shapes this program uses). -/
inductive JVal where
  | jnum (n : Int)
  | jbool (b : Bool)
  | jstr (s : String)
deriving DecidableEq, Repr

/-- A Python dict of settings, as an insertion-ordered association list. -/
abbrev Config := List (String × JVal)

/-- One assignment `d[k] = v` of Python dict-update semantics: replace the
value in place if the key is present, else append the new pair. -/
def setKey (d : Config) (k : String) (v : JVal) : Config :=
  if k ∈ d.map Prod.fst then
    d.map (fun kv => if kv.1 = k then (k, v) else kv)
  else
    d ++ [(k, v)]

/-- Python `defaults.update(saved)`: apply each saved pair in order. -/
def dictUpdate (d : Config) (saved : Config) : Config :=
  saved.foldl (fun acc kv => setKey acc kv.1 kv.2) d

/-- The `defaults` dict built at the top of `load_config`. -/
def config_defaults : Config :=
  [("poll_interval_ms", .jnum 300),
   ("auto_space", .jbool true),
   ("show_notifications", .jbool true)]

/-- What the settings file on disk can look like from `load_config`'s point
of view: absent, unreadable/unparsable (anything that raises inside the
`try`), or a parsed JSON object. -/
inductive ConfigFile where
  | missing
  | malformed
  | valid (saved : Config)

/-- `load_config()`: defaults, updated by the saved dict when the file exists
and parses; any exception falls back to the defaults. -/
def load_config : ConfigFile → Config
  | .missing => config_defaults
  | .malformed => config_defaults
  | .valid saved => dictUpdate config_defaults saved

/-- Python `config.get(k, default)`. -/
def configGet (c : Config) (k : String) (d : JVal) : JVal :=
  (c.lookup k).getD d

/-- `poll_sec = self.config.get("poll_interval_ms", 300) / 1000.0` at the top
of `_monitor_loop`, in seconds as an exact rational. Python numbers (ints and
bools) divide; a non-numeric stored value would raise, modelled as `none`. -/
def poll_sec (c : Config) : Option ℚ :=
  match configGet c "poll_interval_ms" (.jnum 300) with
  | .jnum n => some ((n : ℚ) / 1000)
  | .jbool b => some ((if b then 1 else 0 : ℚ) / 1000)
  | .jstr _ => none

/-! ## The clipboard bridge -/

/-- The mutable fields of `ClipboardBridge` the monitor loop touches. -/
structure BridgeState where
  running : Bool
  last_seq : Nat
  last_text : String
deriving DecidableEq, Repr

/-- One iteration of the `while` body of `_monitor_loop`, given the sampled
clipboard sequence number and text. Returns the updated state and the text
handed to `_process_clipboard_text`, when any. -/
def monitorIter (st : BridgeState) (currentSeq : Nat) (currentText : String) :
    BridgeState × Option String :=
  if currentSeq ≠ st.last_seq then
    let st1 := { st with last_seq := currentSeq }
    if currentText ≠ "" ∧ currentText ≠ st1.last_text then
      ({ st1 with last_text := currentText }, some currentText)
    else
      (st1, none)
  else
    (st, none)

/-- One iteration of the `while` body with the fallible steps explicit: the
sequence-number read, the text read, and the classify-and-dispatch call may
each raise. The surrounding `try/except` catches anything raised, keeping the
state as mutated so far, so the iteration always returns a state. -/
def monitorIterExc (st : BridgeState) (seqRead : Except Unit Nat)
    (textRead : Except Unit String) (dispatchRes : Except Unit Unit) :
    BridgeState :=
  match seqRead with
  | .error _ => st
  | .ok currentSeq =>
    if currentSeq ≠ st.last_seq then
      let st1 := { st with last_seq := currentSeq }
      match textRead with
      | .error _ => st1
      | .ok currentText =>
        if currentText ≠ "" ∧ currentText ≠ st1.last_text then
          let st2 := { st1 with last_text := currentText }
          match dispatchRes with
          | .error _ => st2
          | .ok _ => st2
        else
          st1
    else
      st

/-- Externally visible side effects of `start` / `stop`. -/
inductive Effect where
  | spawnThread
  | joinThread
  | notify (msg : String)
deriving DecidableEq, Repr

/-- The fields of `ClipboardBridge` relevant to `start`/`stop`:
`running`, whether `self.thread` is set, the baseline pair, and `self.config`. -/
structure Bridge where
  running : Bool
  threadActive : Bool
  last_seq : Nat
  last_text : String
  config : Config
deriving DecidableEq, Repr

/-- `ClipboardBridge.start()`, given the clipboard sequence number and text
sampled for the baseline. Returns the new state and the effects in order. -/
def Bridge.start (b : Bridge) (seq : Nat) (txt : String) :
    Bridge × List Effect :=
  if b.running then
    (b, [])
  else
    ({ b with running := true, last_seq := seq, last_text := txt,
               threadActive := true },
     [.spawnThread,
      .notify "Clipboard monitoring started - dictate into DragonPad and transfer."])

/-- `ClipboardBridge.stop()`: clear `running`, join and clear the thread if
set, then emit the stopped notification. -/
def Bridge.stop (b : Bridge) : Bridge × List Effect :=
  let b1 := { b with running := false }
  if b1.threadActive then
    ({ b1 with threadActive := false },
     [.joinThread, .notify "Clipboard monitoring stopped."])
  else
    (b1, [.notify "Clipboard monitoring stopped."])

/-- Two configs that agree everywhere except possibly at the
`show_notifications` key. -/
def agreeExceptShowNotif (c₁ c₂ : Config) : Prop :=
  ∀ k, k ≠ "show_notifications" → c₁.lookup k = c₂.lookup k

/-- The observable part of a bridge: every field except the stored config
dict. -/
def Bridge.obs (b : Bridge) : Bool × Bool × Nat × String :=
  (b.running, b.threadActive, b.last_seq, b.last_text)

/-- The bridge behaves the same under two configs: the poll interval, the
state changes and effects of `start` and `stop`, and the attempt to show the
start/stop notifications are all identical. -/
def bridgeIgnoresShowNotif (c₁ c₂ : Config) : Prop :=
  poll_sec c₁ = poll_sec c₂ ∧
  ∀ (r th : Bool) (ls s : Nat) (lt t : String),
    ((Bridge.mk r th ls lt c₁).start s t).1.obs =
      ((Bridge.mk r th ls lt c₂).start s t).1.obs ∧
    ((Bridge.mk r th ls lt c₁).start s t).2 =
      ((Bridge.mk r th ls lt c₂).start s t).2 ∧
    (Bridge.mk r th ls lt c₁).stop.1.obs = (Bridge.mk r th ls lt c₂).stop.1.obs ∧
    (Bridge.mk r th ls lt c₁).stop.2 = (Bridge.mk r th ls lt c₂).stop.2 ∧
    (r = false →
      Effect.notify "Clipboard monitoring started - dictate into DragonPad and transfer."
          ∈ ((Bridge.mk r th ls lt c₁).start s t).2 ∧
      Effect.notify "Clipboard monitoring started - dictate into DragonPad and transfer."
          ∈ ((Bridge.mk r th ls lt c₂).start s t).2) ∧
    Effect.notify "Clipboard monitoring stopped." ∈ (Bridge.mk r th ls lt c₁).stop.2 ∧
    Effect.notify "Clipboard monitoring stopped." ∈ (Bridge.mk r th ls lt c₂).stop.2

/-! ## Theorems -/

theorem lookup_isSome_eq_contains_keys (l : List (String × String)) (n : String) :
    (l.lookup n).isSome = (l.map Prod.fst).contains n := by
  induction l with
  | nil => rfl
  | cons hd tl ih =>
    simp only [List.lookup, List.map_cons, List.contains_cons]
    cases h : n == hd.1 with
    | true => simp [h]
    | false => simp [h, ih]

/-- C1: for every input string, the classifier normalizes by strip+lower and
returns the action-table value when the normalized text is an action key,
else the substitution-table value when it is a substitution key, else the
original input unchanged — action matches take precedence. -/
theorem process_voice_commands_matches_spec (s : String) :
    process_voice_commands s = classify_spec s := by
  unfold process_voice_commands classify_spec
  dsimp only
  cases h1 : ACTION_COMMANDS.lookup (pyLower (pyStrip s)) with
  | some v =>
    have hc : (ACTION_COMMANDS.map Prod.fst).contains (pyLower (pyStrip s)) = true := by
      rw [← lookup_isSome_eq_contains_keys, h1]; rfl
    rw [if_pos hc]; rfl
  | none =>
    have hc : (ACTION_COMMANDS.map Prod.fst).contains (pyLower (pyStrip s)) = false := by
      rw [← lookup_isSome_eq_contains_keys, h1]; rfl
    cases h2 : VOICE_COMMANDS.lookup (pyLower (pyStrip s)) with
    | some v =>
      have hc2 : (VOICE_COMMANDS.map Prod.fst).contains (pyLower (pyStrip s)) = true := by
        rw [← lookup_isSome_eq_contains_keys, h2]; rfl
      rw [if_neg (by rw [hc]; decide), if_pos hc2]; rfl
    | none =>
      have hc2 : (VOICE_COMMANDS.map Prod.fst).contains (pyLower (pyStrip s)) = false := by
        rw [← lookup_isSome_eq_contains_keys, h2]; rfl
      rw [if_neg (by rw [hc]; decide), if_neg (by rw [hc2]; decide)]

/-- C2: every action-table phrase classifies as an Action, and classifying
its uppercased form or the form with a space added on each side gives the
identical result (case and edge-whitespace insensitivity). -/
theorem classify_action_case_space_insensitive :
    ∀ p ∈ ACTION_COMMANDS.map Prod.fst,
      (process_voice_commands p).isAction = true ∧
      process_voice_commands (pyUpper p) = process_voice_commands p ∧
      process_voice_commands (" " ++ p ++ " ") = process_voice_commands p := by
  decide

/-- Witness for C2 at the concrete phrase "undo that". -/
theorem classify_action_case_space_insensitive_witness :
    "undo that" ∈ ACTION_COMMANDS.map Prod.fst ∧
    ((process_voice_commands "undo that").isAction = true ∧
     process_voice_commands (pyUpper "undo that") = process_voice_commands "undo that" ∧
     process_voice_commands (" " ++ "undo that" ++ " ") =
       process_voice_commands "undo that") :=
  ⟨by decide, classify_action_case_space_insensitive "undo that" (by decide)⟩

/-- C7 counterexample: the action table does not map "undo that" to
"UndoCommand", and classifying "Undo That" does not give Action("UndoCommand");
the stored value is the dispatch URL ".uno:Undo". -/
theorem undo_that_value_counterexample :
    ACTION_COMMANDS.lookup "undo that" ≠ some "UndoCommand" ∧
    process_voice_commands "Undo That" ≠ .action "UndoCommand" := by
  decide

/-- C7 amended: the action table maps "undo that" to ".uno:Undo", and
classify("Undo That") returns Action(".uno:Undo"). -/
theorem undo_that_maps_to_uno_undo :
    ACTION_COMMANDS.lookup "undo that" = some ".uno:Undo" ∧
    process_voice_commands "Undo That" = .action ".uno:Undo" := by
  decide

/-- C8 counterexample: the two tables hold 19 + 12 = 31 entries, which is not
fewer than 30. -/
theorem table_sizes_counterexample :
    ¬ (VOICE_COMMANDS.length + ACTION_COMMANDS.length < 30) := by
  decide

/-- C8 amended: the keys of each table are pairwise distinct (so the dict
sizes are the literal lengths) and the two tables together contain exactly 31
entries. -/
theorem table_sizes :
    (VOICE_COMMANDS.map Prod.fst).Nodup ∧
    (ACTION_COMMANDS.map Prod.fst).Nodup ∧
    VOICE_COMMANDS.length + ACTION_COMMANDS.length = 31 := by
  decide

/-- C3: one iteration of the monitor loop dispatches exactly when the sampled
sequence number differs from the last observed one and the sampled text is
non-empty and differs from the last processed text; in particular an
unchanged sequence number, an empty text, or a repeated text dispatches
nothing. -/
theorem monitor_iter_dispatch_condition (st : BridgeState) (q : Nat) (t : String) :
    (monitorIter st q t).2.isSome =
      (decide (q ≠ st.last_seq) && decide (t ≠ "") && decide (t ≠ st.last_text)) := by
  unfold monitorIter
  by_cases h1 : q ≠ st.last_seq
  · rw [if_pos h1]
    by_cases h2 : t ≠ "" ∧ t ≠ st.last_text
    · rw [if_pos h2]
      simp [h1, h2.1, h2.2]
    · rw [if_neg h2]
      rcases not_and_or.mp h2 with h | h <;> simp [h1, not_not.mp h]
  · rw [if_neg h1]
    simp [not_not.mp h1]

/-- C4: any combination of failures in one iteration's clipboard reads or
dispatch is absorbed: the iteration still returns a state, the `running`
flag is untouched, a failed sequence read leaves the state as it was, and
when nothing fails the iteration agrees with the failure-free body. -/
theorem monitor_iter_exception_caught (st : BridgeState)
    (sR : Except Unit Nat) (tR : Except Unit String) (dR : Except Unit Unit) :
    (monitorIterExc st sR tR dR).running = st.running ∧
    (monitorIterExc st (.error ()) tR dR = st) ∧
    (∀ q t, monitorIterExc st (.ok q) (.ok t) (.ok ()) = (monitorIter st q t).1) := by
  refine ⟨?_, rfl, ?_⟩
  · unfold monitorIterExc
    cases sR with
    | error e => rfl
    | ok q =>
      dsimp only
      by_cases h1 : q ≠ st.last_seq
      · rw [if_pos h1]
        cases tR with
        | error e => rfl
        | ok t =>
          dsimp only
          by_cases h2 : t ≠ "" ∧ t ≠ st.last_text
          · rw [if_pos h2]; cases dR <;> rfl
          · rw [if_neg h2]
      · rw [if_neg h1]
  · intro q t
    unfold monitorIterExc monitorIter
    dsimp only
    by_cases h1 : q ≠ st.last_seq
    · rw [if_pos h1, if_pos h1]
      by_cases h2 : t ≠ "" ∧ t ≠ st.last_text
      · rw [if_pos h2, if_pos h2]
      · rw [if_neg h2, if_neg h2]
    · rw [if_neg h1, if_neg h1]

/-- C5: `stop` twice ends in the same state as `stop` once, with `running`
false and the thread handle cleared, and never raises; `start` twice ends in
the state of `start` once with an empty second effect list (no second thread
spawned, no repeated notification); `start` on a running bridge changes
nothing and emits nothing. -/
theorem start_stop_idempotent (b : Bridge) (s s' : Nat) (t t' : String) :
    ((b.stop.1).stop.1 = b.stop.1) ∧
    (b.stop.1.running = false) ∧
    (b.stop.1.threadActive = false) ∧
    (((b.start s t).1.start s' t') = ((b.start s t).1, [])) ∧
    (b.running = true → b.start s t = (b, [])) := by
  constructor
  · unfold Bridge.stop
    by_cases h : b.threadActive <;> simp [h]
  constructor
  · unfold Bridge.stop
    by_cases h : b.threadActive <;> simp [h]
  constructor
  · unfold Bridge.stop
    by_cases h : b.threadActive <;> simp [h]
  constructor
  · have hrun : (b.start s t).1.running = true := by
      unfold Bridge.start
      by_cases h : b.running <;> simp [h]
    set b1 := (b.start s t).1 with hb
    unfold Bridge.start
    simp [hrun]
  · intro h
    unfold Bridge.start
    simp [h]

/-- Witness for C5 at a concrete bridge that is running. -/
theorem start_stop_idempotent_witness :
    let b : Bridge := ⟨true, true, 5, "abc", config_defaults⟩
    b.running = true ∧ b.start 7 "xyz" = (b, []) :=
  ⟨rfl, (start_stop_idempotent ⟨true, true, 5, "abc", config_defaults⟩ 7 0 "xyz" "").2.2.2.2 rfl⟩

theorem lookup_map_replace (d : Config) (k : String) (v : JVal)
    (h : k ∈ d.map Prod.fst) :
    (d.map (fun kv => if kv.1 = k then (k, v) else kv)).lookup k = some v := by
  induction d with
  | nil => cases h
  | cons hd tl ih =>
    obtain ⟨a, b⟩ := hd
    by_cases hk : a = k
    · subst hk
      have hhead : (if (a, b).1 = a then (a, v) else (a, b)) = (a, v) := by
        simp
      rw [List.map_cons, hhead]
      simp [List.lookup]
    · have h' : k ∈ tl.map Prod.fst := by
        rcases List.mem_cons.mp h with he | hr
        · exact absurd he.symm hk
        · exact hr
      have hhead : (if (a, b).1 = k then (k, v) else (a, b)) = (a, b) := by
        simp [hk]
      rw [List.map_cons, hhead]
      have hb : (k == a) = false := beq_eq_false_iff_ne.mpr (Ne.symm hk)
      simp [List.lookup, hb, ih h']

theorem lookup_map_replace_ne (d : Config) (k : String) (v : JVal) (k' : String)
    (h : k' ≠ k) :
    (d.map (fun kv => if kv.1 = k then (k, v) else kv)).lookup k' = d.lookup k' := by
  induction d with
  | nil => rfl
  | cons hd tl ih =>
    obtain ⟨a, b⟩ := hd
    by_cases hk : a = k
    · subst hk
      have hhead : (if (a, b).1 = a then (a, v) else (a, b)) = (a, v) := by
        simp
      rw [List.map_cons, hhead]
      have hb : (k' == a) = false := beq_eq_false_iff_ne.mpr h
      simp [List.lookup, hb, ih]
    · have hhead : (if (a, b).1 = k then (k, v) else (a, b)) = (a, b) := by
        simp [hk]
      rw [List.map_cons, hhead]
      cases hb : (k' == a) with
      | true => simp [List.lookup, hb]
      | false => simp [List.lookup, hb, ih]

theorem lookup_none_of_not_mem (d : Config) (k : String)
    (h : k ∉ d.map Prod.fst) : d.lookup k = none := by
  induction d with
  | nil => rfl
  | cons hd tl ih =>
    have hk : k ≠ hd.1 := fun e => h (by simp [e])
    have hb : (k == hd.1) = false := beq_eq_false_iff_ne.mpr hk
    have h' : k ∉ tl.map Prod.fst := fun m => h (by simp [m])
    simp [List.lookup, hb, ih h']

theorem lookup_append_left (l₁ l₂ : Config) (k : String) (v : JVal)
    (h : l₁.lookup k = some v) : (l₁ ++ l₂).lookup k = some v := by
  induction l₁ with
  | nil => cases h
  | cons hd tl ih =>
    cases hb : (k == hd.1) with
    | true =>
      have hv : hd.2 = v := by simpa [List.lookup, hb] using h
      simp [List.lookup, hb, hv]
    | false =>
      have h' : tl.lookup k = some v := by simpa [List.lookup, hb] using h
      simp [List.lookup, hb, ih h']

theorem lookup_append_right (l₁ l₂ : Config) (k : String)
    (h : l₁.lookup k = none) : (l₁ ++ l₂).lookup k = l₂.lookup k := by
  induction l₁ with
  | nil => rfl
  | cons hd tl ih =>
    cases hb : (k == hd.1) with
    | true => simp [List.lookup, hb] at h
    | false =>
      have h' : tl.lookup k = none := by simpa [List.lookup, hb] using h
      simp [List.lookup, hb, ih h']

theorem lookup_setKey_self (d : Config) (k : String) (v : JVal) :
    (setKey d k v).lookup k = some v := by
  unfold setKey
  by_cases h : k ∈ d.map Prod.fst
  · rw [if_pos h]; exact lookup_map_replace d k v h
  · rw [if_neg h, lookup_append_right _ _ _ (lookup_none_of_not_mem d k h)]
    simp [List.lookup]

theorem lookup_setKey_ne (d : Config) (k : String) (v : JVal) (k' : String)
    (h : k' ≠ k) : (setKey d k v).lookup k' = d.lookup k' := by
  unfold setKey
  by_cases hm : k ∈ d.map Prod.fst
  · rw [if_pos hm]; exact lookup_map_replace_ne d k v k' h
  · rw [if_neg hm]
    cases h' : d.lookup k' with
    | some w => exact lookup_append_left _ _ _ _ h'
    | none =>
      rw [lookup_append_right _ _ _ h']
      have hb : (k' == k) = false := beq_eq_false_iff_ne.mpr h
      simp [List.lookup, hb]

theorem lookup_dictUpdate_not_mem (d saved : Config) (k : String)
    (h : k ∉ saved.map Prod.fst) :
    (dictUpdate d saved).lookup k = d.lookup k := by
  induction saved generalizing d with
  | nil => rfl
  | cons p rest ih =>
    have hk : k ≠ p.1 := fun e => h (by simp [e])
    have h' : k ∉ rest.map Prod.fst := fun m => h (by simp [m])
    rw [show dictUpdate d (p :: rest) = dictUpdate (setKey d p.1 p.2) rest from rfl,
        ih _ h', lookup_setKey_ne _ _ _ _ hk]

theorem lookup_dictUpdate_mem (d saved : Config) (k : String) (v : JVal)
    (hnd : (saved.map Prod.fst).Nodup) (h : (k, v) ∈ saved) :
    (dictUpdate d saved).lookup k = some v := by
  induction saved generalizing d with
  | nil => cases h
  | cons p rest ih =>
    have hnd' : p.1 ∉ List.map Prod.fst rest ∧ (List.map Prod.fst rest).Nodup := by
      rw [List.map_cons] at hnd
      exact List.nodup_cons.mp hnd
    rw [show dictUpdate d (p :: rest) = dictUpdate (setKey d p.1 p.2) rest from rfl]
    rcases List.mem_cons.mp h with he | hr
    · cases he.symm
      rw [lookup_dictUpdate_not_mem _ _ _ hnd'.1, lookup_setKey_self]
    · exact ih _ hnd'.2 hr

/-- C6: `load_config` always returns a settings dict: the exact defaults when
the file is missing or malformed, and, for a valid file, a dict in which
every persisted key has its persisted value and every other key keeps its
default value. -/
theorem load_config_never_fails_and_merges :
    load_config .missing = config_defaults ∧
    (load_config .missing).lookup "poll_interval_ms" = some (.jnum 300) ∧
    (load_config .missing).lookup "auto_space" = some (.jbool true) ∧
    (load_config .missing).lookup "show_notifications" = some (.jbool true) ∧
    load_config .malformed = config_defaults ∧
    ∀ saved : Config, (saved.map Prod.fst).Nodup →
      ∀ k v, ((k, v) ∈ saved → (load_config (.valid saved)).lookup k = some v) ∧
        (k ∉ saved.map Prod.fst →
          (load_config (.valid saved)).lookup k = config_defaults.lookup k) := by
  refine ⟨rfl, by decide, by decide, by decide, rfl, ?_⟩
  intro saved hnd k v
  exact ⟨fun h => lookup_dictUpdate_mem _ _ _ _ hnd h,
         fun h => lookup_dictUpdate_not_mem _ _ _ h⟩

/-- Witness for C6 at a file persisting only `poll_interval_ms = 500`. -/
theorem load_config_never_fails_and_merges_witness :
    ([("poll_interval_ms", JVal.jnum 500)].map Prod.fst).Nodup ∧
    ("poll_interval_ms", JVal.jnum 500) ∈ [("poll_interval_ms", JVal.jnum 500)] ∧
    (load_config (.valid [("poll_interval_ms", JVal.jnum 500)])).lookup
        "poll_interval_ms" = some (.jnum 500) ∧
    "auto_space" ∉ [("poll_interval_ms", JVal.jnum 500)].map Prod.fst ∧
    (load_config (.valid [("poll_interval_ms", JVal.jnum 500)])).lookup
        "auto_space" = config_defaults.lookup "auto_space" := by
  have h := load_config_never_fails_and_merges
  refine ⟨by decide, by decide, ?_, by decide, ?_⟩
  · exact (h.2.2.2.2.2 [("poll_interval_ms", JVal.jnum 500)] (by decide)
      "poll_interval_ms" (JVal.jnum 500)).1 (by decide)
  · exact (h.2.2.2.2.2 [("poll_interval_ms", JVal.jnum 500)] (by decide)
      "auto_space" (JVal.jnum 500)).2 (by decide)

/-- C10: no clamping of the persisted poll interval: any integer stored under
`poll_interval_ms` in a valid settings file comes back from `load_config`
unchanged, and the monitor loop sleeps exactly that many milliseconds
(v/1000 seconds) per iteration. -/
theorem poll_interval_not_clamped :
    ∀ (saved : Config) (v : Int), (saved.map Prod.fst).Nodup →
      ("poll_interval_ms", JVal.jnum v) ∈ saved →
      (load_config (.valid saved)).lookup "poll_interval_ms" = some (.jnum v) ∧
      poll_sec (load_config (.valid saved)) = some ((v : ℚ) / 1000) := by
  intro saved v hnd hm
  have hl : (load_config (.valid saved)).lookup "poll_interval_ms" = some (.jnum v) :=
    lookup_dictUpdate_mem _ _ _ _ hnd hm
  refine ⟨hl, ?_⟩
  unfold poll_sec configGet
  rw [hl]
  rfl

/-- Witness for C10 at the out-of-range value 5000 ms (above the settings
dialog's 2000 ms field maximum). -/
theorem poll_interval_not_clamped_witness :
    ([("poll_interval_ms", JVal.jnum 5000)].map Prod.fst).Nodup ∧
    ("poll_interval_ms", JVal.jnum 5000) ∈ [("poll_interval_ms", JVal.jnum 5000)] ∧
    ((load_config (.valid [("poll_interval_ms", JVal.jnum 5000)])).lookup
        "poll_interval_ms" = some (.jnum 5000) ∧
     poll_sec (load_config (.valid [("poll_interval_ms", JVal.jnum 5000)])) =
       some (((5000 : Int) : ℚ) / 1000)) :=
  ⟨by decide, by decide, poll_interval_not_clamped _ 5000 (by decide) (by decide)⟩

/-- C9: the bridge never reads `show_notifications`: under any two configs
that agree outside that key, the poll interval and the state changes and
effects of `start` and `stop` coincide, and the start/stop notification is
attempted regardless of the stored value. -/
theorem show_notif_setting_not_read :
    ∀ c₁ c₂ : Config, agreeExceptShowNotif c₁ c₂ → bridgeIgnoresShowNotif c₁ c₂ := by
  intro c₁ c₂ hag
  constructor
  · unfold poll_sec configGet
    rw [hag "poll_interval_ms" (by decide)]
  · intro r th ls s lt t
    refine ⟨?_, ?_, ?_, ?_, ?_, ?_, ?_⟩ <;>
      cases r <;> cases th <;>
      simp [Bridge.start, Bridge.stop, Bridge.obs]

/-- Witness for C9 at two one-entry configs storing opposite values of
`show_notifications`. -/
theorem show_notif_setting_not_read_witness :
    agreeExceptShowNotif [("show_notifications", JVal.jbool true)]
        [("show_notifications", JVal.jbool false)] ∧
    bridgeIgnoresShowNotif [("show_notifications", JVal.jbool true)]
        [("show_notifications", JVal.jbool false)] := by
  have hag : agreeExceptShowNotif [("show_notifications", JVal.jbool true)]
      [("show_notifications", JVal.jbool false)] := by
    intro k hk
    have hb : (k == "show_notifications") = false := beq_eq_false_iff_ne.mpr hk
    simp [List.lookup, hb]
  exact ⟨hag, show_notif_setting_not_read _ _ hag⟩
